import Mathlib

/-!
Verification development for the `iwillkms` PLC static-analysis backend
(`src/backend`).  The Rust sources are shallowly embedded: each rule module
(`rules/rule1.rs`, `rule4.rs`, `rule6.rs`, `rule7.rs`, `rule8.rs`,
`rule10.rs`), the shared helpers (`rules/utils.rs`), the policy types
(`rules/policy.rs`) and the WASM entry point (`lib.rs`) are translated into
executable Lean definitions, and the behavioural claims about them are
settled as theorems below.

Modelling conventions:
* Rust `String` is Lean `String`; all character-level operations
  (`to_ascii_uppercase`, `contains`, `ends_with`, `starts_with`, `trim`,
  `replace(' ', "")`) are re-implemented over `String.data` so that every
  definition reduces inside the kernel.  The analyzed identifiers are ASCII,
  where Rust's byte-based `len`/`trim` agree with the character-based model.
* Rust `HashSet<String>` values are modelled as duplicate-free `List String`
  with membership-based `insert`/`remove`/`union`; the analyses only observe
  sets through membership, so the list order is irrelevant to every result
  we prove about them (taint-set facts are stated via membership).
* `Vec` accumulation by `&mut` is modelled by returning the accumulated list;
  elements appear in push order.
-/

namespace PLC

/-! ## Character/string primitives (ASCII models of the Rust `str` methods) -/

/-- Model of `u8::to_ascii_uppercase` on a character. -/
def up_char (c : Char) : Char :=
  if 'a' ≤ c ∧ c ≤ 'z' then Char.ofNat (c.toNat - 32) else c

/-- Model of `char::to_ascii_lowercase`. -/
def low_char (c : Char) : Char :=
  if 'A' ≤ c ∧ c ≤ 'Z' then Char.ofNat (c.toNat + 32) else c

/-- Model of `str::to_ascii_uppercase`. -/
def up_str (s : String) : String := ⟨s.data.map up_char⟩

/-- Model of `str::to_ascii_lowercase`. -/
def low_str (s : String) : String := ⟨s.data.map low_char⟩

/-- Substring occurrence over character lists. -/
def contains_chars (pat : List Char) : List Char → Bool
  | [] => pat.isEmpty
  | c :: rest => pat.isPrefixOf (c :: rest) || contains_chars pat rest

/-- Model of `str::contains(pat)`. -/
def contains_sub (s pat : String) : Bool := contains_chars pat.data s.data

/-- Model of `str::ends_with(pat)`. -/
def ends_with_str (s pat : String) : Bool :=
  pat.data.reverse.isPrefixOf s.data.reverse

/-- Model of `str::starts_with(pat)`. -/
def starts_with_str (s pat : String) : Bool := pat.data.isPrefixOf s.data

/-- Model of `str::replace(' ', "")`. -/
def strip_spaces (s : String) : String := ⟨s.data.filter (fun c => !(c == ' '))⟩

/-- ASCII whitespace recognizer used by `str::trim` on the inputs we model. -/
def is_ws (c : Char) : Bool := c == ' ' || c == '\t' || c == '\n' || c == '\r'

/-- Model of `str::split('-').collect::<Vec<_>>()` over character lists:
the empty string yields one empty part. -/
def split_on_dash : List Char → List (List Char)
  | [] => [[]]
  | c :: rest =>
      if c == '-' then [] :: split_on_dash rest
      else
        match split_on_dash rest with
        | [] => [[c]]
        | h :: t => (c :: h) :: t

/-- Model of `str::trim` (ASCII whitespace). -/
def str_trim (s : String) : String :=
  ⟨((s.data.dropWhile is_ws).reverse.dropWhile is_ws).reverse⟩

/-- Decimal rendering of a natural number (model of `usize`/digit display). -/
def nat_to_str (n : Nat) : String := ⟨Nat.toDigits 10 n⟩

/-- Model of `i64` `Display`. -/
def int_to_str (n : Int) : String :=
  if n < 0 then "-" ++ nat_to_str n.natAbs else nat_to_str n.toNat

/-- Numeric value of a list of decimal digit characters. -/
def digits_to_nat (l : List Char) : Nat :=
  l.foldl (fun acc c => acc * 10 + (c.toNat - 48)) 0

/-- Model of `&str::parse::<i64>()` applied to a digits-only string:
fails on the empty string and on values that overflow `i64`. -/
def parse_i64_digits (digits : List Char) : Option Int :=
  if digits.isEmpty then none
  else
    let n := digits_to_nat digits
    if n < 2 ^ 63 then some (Int.ofNat n) else none

/-! ## Set model for `HashSet<String>` -/

/-- `HashSet::insert` on the list model. -/
def set_insert (s : List String) (v : String) : List String :=
  if s.contains v then s else v :: s

/-- `HashSet::remove` on the list model. -/
def set_remove (s : List String) (v : String) : List String :=
  s.filter (fun x => !(x == v))

/-- `HashSet::union` on the list model (membership-faithful). -/
def list_union (a b : List String) : List String :=
  a ++ b.filter (fun v => !(a.contains v))

/-! ## AST (`src/backend/src/ast.rs`) -/

/-- `ast::FunctionKind`. -/
inductive FunctionKind where
  | FC | FB | Program | OB | OB1 | OB100 | OB82 | OB86 | OB121
deriving DecidableEq

/-- `ast::UnaryOp`. -/
inductive UnaryOp where
  | Not
deriving DecidableEq

/-- `ast::BinOp`. -/
inductive BinOp where
  | Add | Sub | Mul | Div | Eq | Neq | Lt | Le | Gt | Ge | And | Or
deriving DecidableEq

/-- `ast::Expression`. -/
inductive Expression where
  | NumberLiteral (n : Int) (line : Nat)
  | BoolLiteral (b : Bool) (line : Nat)
  | VariableRef (name : String)
  | UnaryOp (op : UnaryOp) (expr : Expression) (line : Nat)
  | BinaryOp (op : BinOp) (left right : Expression) (line : Nat)
  | Index (base index : Expression) (line : Nat)
  | FuncCall (name : String) (args : List Expression) (line : Nat)

/-- `ast::Statement`.  The `target` of an assignment is the `name` field of
the `ast::Variable` struct (a plain string). -/
inductive Statement where
  | Assign (target : String) (value : Expression) (line : Nat)
  | Call (name : String) (args : List (String × Expression)) (line : Nat)
  | IfStmt (condition : Expression) (then_branch else_branch : List Statement) (line : Nat)
  | Expr (expr : Expression) (line : Nat)
  | Comment (text : String) (line : Nat)
  | CaseStmt (expression : Expression) (cases : List (List Expression × List Statement))
      (else_branch : List Statement) (line : Nat)
  | ElseMarker (line : Nat)

/-- `ast::Function`. -/
structure Function where
  name : String
  kind : FunctionKind
  statements : List Statement
  line : Nat

/-- `ast::Program`. -/
structure Program where
  functions : List Function

/-- Violation record produced by the rules (`rules/mod` `Violation`). -/
structure Violation where
  rule_no : Nat
  rule_name : String
  line : Nat
  reason : String
  suggestion : String
deriving DecidableEq

/-! ## Shared helpers (`src/backend/src/rules/utils.rs`) -/

namespace Utils

/-- `utils::is_sensitive_variable`. -/
def is_sensitive_variable (name : String) : Bool :=
  let upper := up_str name
  contains_sub upper "HMI" || contains_sub upper "RECIPE" || contains_sub upper ".PAR."

/-- Rendering of a `BinOp` symbol, as in `utils::expr_text`. -/
def bin_op_text (op : BinOp) : String :=
  match op with
  | .Add => "+" | .Sub => "-" | .Mul => "*" | .Div => "/"
  | .Eq => "=" | .Neq => "<>" | .Lt => "<" | .Le => "<="
  | .Gt => ">" | .Ge => ">=" | .And => "AND" | .Or => "OR"

mutual
/-- `utils::expr_text`: stringify an expression. -/
def expr_text : Expression → String
  | .NumberLiteral n _ => int_to_str n
  | .BoolLiteral b _ => if b then "true" else "false"
  | .VariableRef v => v
  | .Index base index _ => expr_text base ++ "[" ++ expr_text index ++ "]"
  | .UnaryOp .Not e _ => "NOT " ++ expr_text e
  | .BinaryOp op left right _ =>
      "(" ++ expr_text left ++ " " ++ bin_op_text op ++ " " ++ expr_text right ++ ")"
  | .FuncCall name args _ => name ++ "(" ++ expr_text_args args ++ ")"

/-- Argument list joined with `", "` (the `join` in `utils::expr_text`). -/
def expr_text_args : List Expression → String
  | [] => ""
  | [e] => expr_text e
  | e :: rest => expr_text e ++ ", " ++ expr_text_args rest
end

/-- `utils::has_plausibility_annotation_above`.  The process-wide
`COMMENT_INDEX` is modelled as an explicit argument `ctx` (the installed
`(line, comment)` index; the unset state is the empty list, on which the
Rust function likewise returns `false`). -/
def has_plausibility_annotation_above (ctx : List (Nat × String)) (line max_gap : Nat) : Bool :=
  ctx.any fun p =>
    decide (p.1 < line) && decide (line - p.1 ≤ max_gap) &&
      (contains_sub p.2 "@PlausibilityCheck" || contains_sub p.2 "@Validated")

end Utils

/-! ## Rule 1 (`src/backend/src/rules/rule1.rs`): complexity / size -/

namespace Rule1

mutual
/-- Contribution of one statement inside `rule1::count_branches_with_depth`. -/
def branches_of_stmt : Statement → Nat → Nat
  | .IfStmt _ then_branch else_branch _, depth =>
      1 + count_branches_with_depth then_branch (depth + 1) +
        (if else_branch.isEmpty then 0
         else count_branches_with_depth else_branch (depth + 1))
  | .CaseStmt _ cases else_branch _, depth =>
      cases.length + (if else_branch.isEmpty then 0 else 1) +
        case_arms_branches cases (depth + 1) +
        count_branches_with_depth else_branch (depth + 1)
  | _, _ => 0

/-- `rule1::count_branches_with_depth`.  The source checks `depth > 100` once
at function entry; since `depth` is constant across the `for` loop over one
statement list, checking it when each statement is handled yields the same
value on every input (an empty list counts 0 either way). -/
def count_branches_with_depth : List Statement → Nat → Nat
  | [], _ => 0
  | st :: rest, depth =>
      (if depth > 100 then 0 else branches_of_stmt st depth) +
        count_branches_with_depth rest depth

/-- The `for (_, branch) in cases` loop inside `count_branches_with_depth`. -/
def case_arms_branches : List (List Expression × List Statement) → Nat → Nat
  | [], _ => 0
  | (_, body) :: rest, depth =>
      count_branches_with_depth body depth + case_arms_branches rest depth
end

/-- `rule1::count_branches`. -/
def count_branches (stmts : List Statement) : Nat :=
  count_branches_with_depth stmts 0

/-- `rule1::cyclomatic_complexity`. -/
def cyclomatic_complexity (stmts : List Statement) : Nat :=
  1 + count_branches stmts

mutual
/-- Contribution of one statement inside `rule1::statement_count`. -/
def statements_of_stmt : Statement → Nat
  | .IfStmt _ then_branch else_branch _ =>
      1 + statement_count then_branch + statement_count else_branch
  | .CaseStmt _ cases else_branch _ =>
      1 + case_arms_statements cases + statement_count else_branch
  | _ => 1

/-- `rule1::statement_count`. -/
def statement_count : List Statement → Nat
  | [] => 0
  | st :: rest => statements_of_stmt st + statement_count rest

/-- The `for (_, branch) in cases` loop inside `statement_count`. -/
def case_arms_statements : List (List Expression × List Statement) → Nat
  | [] => 0
  | (_, body) :: rest => statement_count body + case_arms_statements rest
end

/-- `rule1::check` (violations list of the returned `RuleResult`). -/
def check (program : Program) : List Violation :=
  program.functions.flatMap fun f =>
    match f.kind with
    | .FC | .FB | .Program =>
        let complexity := cyclomatic_complexity f.statements
        let count := statement_count f.statements
        (if complexity > 50 then
          [{ rule_no := 1, rule_name := "Modularize PLC Code", line := f.line,
             reason := "Cyclomatic complexity " ++ nat_to_str complexity ++ " exceeds 50",
             suggestion := "Split logic into smaller FC/FBs; reduce branching." }]
         else []) ++
        (if count > 500 then
          [{ rule_no := 1, rule_name := "Modularize PLC Code", line := f.line,
             reason := "Statement count " ++ nat_to_str count ++ " exceeds 500",
             suggestion := "Refactor large routines into smaller units." }]
         else [])
    | _ => []

end Rule1

/-! ## Rule 4 (`src/backend/src/rules/rule4.rs`): guarded division -/

namespace Rule4

/-- `rule4::is_division_guard`. -/
def is_division_guard (e : Expression) : Bool :=
  let text := up_str (strip_spaces (Utils.expr_text e))
  let has_sw_check := contains_sub text "SW.OV=0" && contains_sub text "SW.OS=0"
  let has_zero_check := contains_sub text "<>0" || contains_sub text "!=0"
  has_sw_check || has_zero_check

/-- The violation pushed by `rule4::find_divs`. -/
def div_violation (line : Nat) : Violation :=
  { rule_no := 4, rule_name := "Use PLC flags as integrity checks", line := line,
    reason := "Division operation without status-word / zero-divisor guard",
    suggestion := "Wrap division inside IF SW.OV=0 AND SW.OS=0 AND divisor<>0 THEN ..." }

/-- `rule4::find_divs`. -/
def find_divs (expr : Expression) (line : Nat) (guarded : Bool) : List Violation :=
  match expr with
  | .BinaryOp .Div _ _ _ =>
      -- One violation for the whole tree; children are not visited.
      if !guarded then [div_violation line] else []
  | .BinaryOp _ left right _ => find_divs left line guarded ++ find_divs right line guarded
  | .Index base index _ => find_divs base line guarded ++ find_divs index line guarded
  | _ => []

mutual
/-- Handling of one statement inside `rule4::collect_div_violations`. -/
def div_violations_of_stmt : Statement → Bool → List Violation
  | .IfStmt condition then_branch else_branch _, guarded =>
      let is_valid_guard := is_division_guard condition
      -- The `then` branch is guarded if already guarded OR the condition is a
      -- valid guard; the `else` branch only if already guarded.
      collect_div_violations then_branch (guarded || is_valid_guard) ++
        collect_div_violations else_branch guarded
  | .Assign _ value line, guarded => find_divs value line guarded
  | .Expr value line, guarded => find_divs value line guarded
  | _, _ => []

/-- `rule4::collect_div_violations`. -/
def collect_div_violations : List Statement → Bool → List Violation
  | [], _ => []
  | st :: rest, guarded =>
      div_violations_of_stmt st guarded ++ collect_div_violations rest guarded
end

/-- `rule4::check` (violations list of the returned `RuleResult`). -/
def check (program : Program) : List Violation :=
  program.functions.flatMap fun f => collect_div_violations f.statements false

end Rule4

/-! ## Variable collection shared by rules 6 and 8

`rule6.rs` and `rule8.rs` each define a private `collect_vars` with identical
bodies (VariableRef / BinaryOp / Index / FuncCall; note that `UnaryOp` operands
are not visited); we embed it once.  The Rust functions insert into a
`HashSet`; the list here may carry duplicates, which is observationally
equivalent since the collected variables are only consumed through
`any`/`contains` / iteration over membership checks. -/

mutual
/-- `collect_vars` (as in `rule6.rs` / `rule8.rs`), uppercased names. -/
def collect_vars : Expression → List String
  | .VariableRef s => [up_str s]
  | .BinaryOp _ left right _ => collect_vars left ++ collect_vars right
  | .Index base index _ => collect_vars base ++ collect_vars index
  | .FuncCall _ args _ => collect_vars_args args
  | _ => []

/-- The `for arg in args` loop inside `collect_vars`. -/
def collect_vars_args : List Expression → List String
  | [] => []
  | e :: rest => collect_vars e ++ collect_vars_args rest
end

/-! ## Rule 6 (`src/backend/src/rules/rule6.rs`): timer/counter validation -/

namespace Rule6

/-- `rule6::is_source`. -/
def is_source (e : Expression) : Bool :=
  (collect_vars e).any Utils.is_sensitive_variable

/-- `rule6::is_timer_preset_sink`. -/
def is_timer_preset_sink (call_name : String) (arg_name : Option String) : Bool :=
  let call_up := up_str call_name
  match arg_name with
  | some arg =>
      let is_timer_call := ends_with_str call_up "TP" || ends_with_str call_up "TON" ||
        ends_with_str call_up "TOF"
      let is_pt_arg := up_str arg == "PT"
      is_timer_call && is_pt_arg
  | none =>
      let is_timer_call := ends_with_str call_up "TP" || ends_with_str call_up "TON" ||
        ends_with_str call_up "TOF"
      let is_preset_var := contains_sub call_up "PRESET" || contains_sub call_up "_PT"
      is_timer_call || is_preset_var

/-- `rule6::join_guards`. -/
def join_guards (parent child : String) : String :=
  if parent.isEmpty then child
  else if child.isEmpty then parent
  else "(" ++ parent ++ ") AND (" ++ child ++ ")"

/-- `rule6::guard_has_range_or_limit`. -/
def guard_has_range_or_limit (guard : String) : Bool :=
  if guard.isEmpty then false
  else
    let g := up_str (strip_spaces guard)
    let has_cmp := contains_sub g "<=" || contains_sub g ">=" ||
      contains_sub g "<" || contains_sub g ">"
    let has_keywords := contains_sub g "LIMIT" || contains_sub g "BOUND" ||
      contains_sub g "MIN" || contains_sub g "MAX" || contains_sub g "RANGE"
    let nonzero := contains_sub g "!=0" || contains_sub g "<>0"
    has_cmp || has_keywords || nonzero

/-- `rule6::check_timer_sink`.  The process-wide comment index is the explicit
argument `ctx` (see `Utils.has_plausibility_annotation_above`). -/
def check_timer_sink (ctx : List (Nat × String)) (call_name : String)
    (arg_name : Option String) (arg_value : Expression) (line : Nat)
    (tainted : List String) (guard_text : String) : List Violation :=
  let arg_vars := collect_vars arg_value
  let arg_is_tainted := is_source arg_value || arg_vars.any fun v => tainted.contains v
  if is_timer_preset_sink call_name arg_name && arg_is_tainted then
    let annotated := Utils.has_plausibility_annotation_above ctx line 3
    let has_range := guard_has_range_or_limit guard_text
    if !(annotated || has_range) then
      [{ rule_no := 6, rule_name := "Validate timers and counters", line := line,
         reason := "Timer preset comes from unvalidated source '" ++
           Utils.expr_text arg_value ++ "'",
         suggestion := "Add a range/plausibility check (or @PlausibilityCheck) before setting timer PT." }]
    else []
  else []

mutual
/-- `rule6::scan_expr_for_sinks`. -/
def scan_expr_for_sinks (ctx : List (Nat × String)) (expr : Expression)
    (tainted : List String) (guard_text : String) : List Violation :=
  match expr with
  | .FuncCall name args line =>
      -- For positional calls, assume PT is the second argument.
      (match args.get? 1 with
       | some pt_arg => check_timer_sink ctx name none pt_arg line tainted guard_text
       | none => []) ++
      sinks_in_args ctx args tainted guard_text
  | .BinaryOp _ left right _ =>
      scan_expr_for_sinks ctx left tainted guard_text ++
        scan_expr_for_sinks ctx right tainted guard_text
  | .Index base index _ =>
      scan_expr_for_sinks ctx base tainted guard_text ++
        scan_expr_for_sinks ctx index tainted guard_text
  | _ => []

/-- The `for arg in args` recursion inside `scan_expr_for_sinks`. -/
def sinks_in_args (ctx : List (Nat × String)) : List Expression → List String → String →
    List Violation
  | [], _, _ => []
  | e :: rest, tainted, guard_text =>
      scan_expr_for_sinks ctx e tainted guard_text ++
        sinks_in_args ctx rest tainted guard_text
end

/-- The `for (arg_name, arg_value) in args` loop of `rule6::scan`'s `Call` arm. -/
def call_args_sinks (ctx : List (Nat × String)) (name : String)
    (args : List (String × Expression)) (line : Nat) (tainted : List String)
    (guard_text : String) : List Violation :=
  args.flatMap fun a => check_timer_sink ctx name (some a.1) a.2 line tainted guard_text

mutual
/-- Handling of one statement inside `rule6::scan`; returns the updated taint
set and the violations pushed while processing it. -/
def scan_stmt (ctx : List (Nat × String)) :
    Statement → List String → String → List String × List Violation
  | .Assign target value line, tainted, guard_text =>
      -- `target` is the name carried by the matched `VariableRef` target.
      let target_up := up_str target
      let rhs_vars := collect_vars value
      let rhs_is_tainted := is_source value || rhs_vars.any fun v => tainted.contains v
      let annotated := Utils.has_plausibility_annotation_above ctx line 3
      let guard_validates := guard_has_range_or_limit guard_text
      let tainted1 :=
        if rhs_is_tainted then
          if annotated || guard_validates then set_remove tainted target_up
          else set_insert tainted target_up
        else set_remove tainted target_up
      -- Also check if this assignment itself is a sink.
      let vs :=
        if is_timer_preset_sink target none && rhs_is_tainted then
          if !(annotated || guard_validates) then
            [{ rule_no := 6, rule_name := "Validate timers and counters", line := line,
               reason := "Timer preset '" ++ target ++ "' set from unvalidated source",
               suggestion := "Add a range/plausibility check before setting timer presets." }]
          else []
        else []
      (tainted1, vs)
  | .IfStmt condition then_branch else_branch _, tainted, guard_text =>
      let cond_txt := up_str (Utils.expr_text condition)
      let new_guard := join_guards guard_text cond_txt
      let then_result := scan ctx then_branch tainted new_guard
      let else_result := scan ctx else_branch tainted guard_text
      (list_union then_result.1 else_result.1, then_result.2 ++ else_result.2)
  | .CaseStmt _ cases else_branch _, tainted, guard_text =>
      let arms_result := scan_case_arms ctx cases tainted tainted guard_text
      let else_result := scan ctx else_branch tainted guard_text
      (list_union arms_result.1 else_result.1, arms_result.2 ++ else_result.2)
  | .Expr expr _, tainted, guard_text =>
      (tainted, scan_expr_for_sinks ctx expr tainted guard_text)
  | .Call name args line, tainted, guard_text =>
      (tainted, call_args_sinks ctx name args line tainted guard_text)
  | _, tainted, _ => (tainted, [])

/-- `rule6::scan`: threads the taint set through the statement list. -/
def scan (ctx : List (Nat × String)) :
    List Statement → List String → String → List String × List Violation
  | [], tainted, _ => (tainted, [])
  | st :: rest, tainted, guard_text =>
      let head := scan_stmt ctx st tainted guard_text
      let tail := scan ctx rest head.1 guard_text
      (tail.1, head.2 ++ tail.2)

/-- The `for (_labels, body) in cases` loop of `rule6::scan`'s `CaseStmt` arm:
each arm body is scanned from the pre-case taint set and the exits are
accumulated by union. -/
def scan_case_arms (ctx : List (Nat × String)) :
    List (List Expression × List Statement) → List String → List String → String →
      List String × List Violation
  | [], _, accum, _ => (accum, [])
  | (_, body) :: rest, tainted, accum, guard_text =>
      let branch := scan ctx body tainted guard_text
      let next := scan_case_arms ctx rest tainted (list_union accum branch.1) guard_text
      (next.1, branch.2 ++ next.2)
end

/-- `rule6::check` (violations list of the returned `RuleResult`). -/
def check (ctx : List (Nat × String)) (program : Program) : List Violation :=
  program.functions.flatMap fun f => (scan ctx f.statements [] "").2

end Rule6

/-! ## Policy types (`src/backend/src/rules/policy.rs`) -/

/-- `policy::MemoryArea`. -/
structure MemoryArea where
  address : String
  access : String
deriving DecidableEq

/-- `policy::Policy`.  A `pairs` entry is a two-element array in the source. -/
structure Policy where
  pairs : Option (List (String × String))
  memory_areas : Option (List MemoryArea)
  platform : Option String

/-- `Policy::default()` (`#[derive(Default)]`: every `Option` is `None`). -/
def default_policy : Policy :=
  { pairs := none, memory_areas := none, platform := none }

/-! ## Rule 7 (`src/backend/src/rules/rule7.rs`): mutually exclusive outputs -/

namespace Rule7

/-- `rule7::is_true_expr`. -/
def is_true_expr : Expression → Bool
  | .BoolLiteral true _ => true
  | .NumberLiteral n _ => n != 0
  | _ => false

mutual
/-- Handling of one statement in `rule7::find_concurrent_activations`:
returns the updated active-signal set, the violations pushed, and whether a
violation was found (which makes the caller skip the rest of its path). -/
def fca_stmt (pair : String × String) :
    Statement → List String → List String × List Violation × Bool
  | .Assign target value line, active =>
      let a_up := up_str pair.1
      let b_up := up_str pair.2
      let target_up := up_str target
      let is_true := is_true_expr value
      let active1 :=
        if target_up == a_up then
          if is_true then set_insert active a_up else set_remove active a_up
        else if target_up == b_up then
          if is_true then set_insert active b_up else set_remove active b_up
        else active
      if active1.contains a_up && active1.contains b_up then
        (active1,
         [{ rule_no := 7, rule_name := "Validate paired inputs/outputs", line := line,
            reason := "Signals '" ++ pair.1 ++ "' and '" ++ pair.2 ++
              "' may be active concurrently",
            suggestion := "Ensure paired signals are in mutually exclusive conditions (e.g., using IF/ELSE)." }],
         true)
      else (active1, [], false)
  | .IfStmt _ then_branch else_branch _, active =>
      -- Each branch is checked independently with a clone of the current state.
      let t := find_concurrent_activations pair then_branch active
      let e := find_concurrent_activations pair else_branch active
      (active, t.1 ++ e.1, t.2 || e.2)
  | _, active => (active, [], false)

/-- `rule7::find_concurrent_activations`; once a violation is found on the
path, the remaining statements are skipped (the `continue` in the source). -/
def find_concurrent_activations (pair : String × String) :
    List Statement → List String → List Violation × Bool
  | [], _ => ([], false)
  | st :: rest, active =>
      let head := fca_stmt pair st active
      if head.2.2 then (head.2.1, true)
      else
        let tail := find_concurrent_activations pair rest head.1
        (head.2.1 ++ tail.1, tail.2)
end

/-- `rule7::check` (violations list of the returned `RuleResult`; the rule
reports clean when the policy has no pairs). -/
def check (program : Program) (policy : Policy) : List Violation :=
  match policy.pairs with
  | none => []
  | some pairs =>
      if pairs.isEmpty then []
      else
        program.functions.flatMap fun func =>
          pairs.flatMap fun pair =>
            (find_concurrent_activations pair func.statements []).1

end Rule7

/-! ## Rule 8 (`src/backend/src/rules/rule8.rs`): HMI taint analysis -/

namespace Rule8

/-- `rule8::is_source`. -/
def is_source (e : Expression) : Bool :=
  (collect_vars e).any fun v =>
    let upper := up_str v
    contains_sub upper "HMI" || contains_sub upper "RECIPE" || contains_sub upper ".PAR."

/-- `rule8::is_assignment_a_sink`. -/
def is_assignment_a_sink (target_name : String) : Bool :=
  let upper := up_str target_name
  contains_sub upper "MOTOR" || contains_sub upper "SPEED" || contains_sub upper "POSITION"

/-- `rule8::is_call_arg_a_sink`. -/
def is_call_arg_a_sink (call_name arg_name : String) : Bool :=
  let call_up := up_str call_name
  let arg_up := up_str arg_name
  (ends_with_str call_up "TP" || ends_with_str call_up "TON") && arg_up == "PT"

/-- `rule8::is_sanitizer_for`: the condition (or an AND/OR sub-term of it,
recursively) is a comparison between the named variable and a numeric
literal.  This is also the structural guard-constraint predicate of the
specification (§4.3). -/
def is_sanitizer_for (condition : Expression) (var_name_upper : String) : Bool :=
  match condition with
  | .BinaryOp op left right _ =>
      let left_is_var := match left with
        | .VariableRef v => up_str v == var_name_upper
        | _ => false
      let right_is_var := match right with
        | .VariableRef v => up_str v == var_name_upper
        | _ => false
      let left_is_lit := match left with
        | .NumberLiteral _ _ => true
        | _ => false
      let right_is_lit := match right with
        | .NumberLiteral _ _ => true
        | _ => false
      match op with
      | .Lt | .Le | .Gt | .Ge | .Eq | .Neq =>
          (left_is_var && right_is_lit) || (right_is_var && left_is_lit)
      | .And | .Or =>
          is_sanitizer_for left var_name_upper || is_sanitizer_for right var_name_upper
      | _ => false
  | _ => false

/-- The `for (arg_name, arg_value) in args` loop of the `Call` arm of
`rule8::find_taint_violations` (violations are reported as rule 6). -/
def call_arg_violations (name : String) (args : List (String × Expression))
    (line : Nat) (tainted : List String) : List Violation :=
  args.flatMap fun a =>
    let value_vars := collect_vars a.2
    let is_tainted := is_source a.2 || value_vars.any fun v => tainted.contains v
    if is_call_arg_a_sink name a.1 && is_tainted then
      [{ rule_no := 6, rule_name := "Validate timers and counters", line := line,
         reason := "Untrusted recipe data from '" ++ Utils.expr_text a.2 ++
           "' flows into sensitive timer parameter '" ++ a.1 ++ "'",
         suggestion := "Validate recipe parameters against safe operational limits before use." }]
    else []

mutual
/-- Handling of one statement inside `rule8::find_taint_violations`; returns
the taint set as left for the following statements, and the violations
pushed.  For `IfStmt` the source recurses into the `then` branch on a local
sanitized clone (whose exit is dropped) and into the `else` branch on the
incoming `&mut` set, so the set left behind is the else-branch exit. -/
def taint_stmt : Statement → List String → List String × List Violation
  | .Assign target value line, tainted =>
      let value_vars := collect_vars value
      let is_tainted := is_source value || value_vars.any fun v => tainted.contains v
      let tainted1 :=
        if is_tainted then set_insert tainted (up_str target)
        else set_remove tainted (up_str target)
      let vs :=
        if is_assignment_a_sink target && is_tainted then
          [{ rule_no := 8, rule_name := "Validate HMI input variables", line := line,
             reason := "Untrusted data flows into sensitive variable '" ++ target ++ "'",
             suggestion := "Sanitize the source variable with a range-checking IF statement before this assignment." }]
        else []
      (tainted1, vs)
  | .IfStmt condition then_branch else_branch _, tainted =>
      let condition_vars := collect_vars condition
      let sanitized_vars := condition_vars.filter fun v =>
        tainted.contains v && is_sanitizer_for condition v
      let then_tainted := sanitized_vars.foldl set_remove tainted
      let then_result := find_taint_violations then_branch then_tainted
      let else_result := find_taint_violations else_branch tainted
      (else_result.1, then_result.2 ++ else_result.2)
  | .Call name args line, tainted =>
      (tainted, call_arg_violations name args line tainted)
  | _, tainted => (tainted, [])

/-- `rule8::find_taint_violations`. -/
def find_taint_violations : List Statement → List String → List String × List Violation
  | [], tainted => (tainted, [])
  | st :: rest, tainted =>
      let head := taint_stmt st tainted
      let tail := find_taint_violations rest head.1
      (tail.1, head.2 ++ tail.2)
end

/-- `rule8::check` (violations list of the returned `RuleResult`): a fresh
taint set per function. -/
def check (program : Program) : List Violation :=
  program.functions.flatMap fun f => (find_taint_violations f.statements []).2

end Rule8

/-! ## Rule 10 (`src/backend/src/rules/rule10.rs`): read-only memory regions -/

namespace Rule10

/-- The character loop of `rule10::parse_mem_address` (over `s.chars().skip(1)`):
accumulates the area letters and the digit run, stopping at the first `.`
after a digit has been seen; any other character is skipped. -/
def pma_loop : List Char → List Char → List Char → Bool → List Char × List Char
  | [], area, num, _ => (area, num)
  | ch :: rest, area, num, seen_digit =>
      if ch.isAlpha && !seen_digit then pma_loop rest (area ++ [ch]) num seen_digit
      else if ch.isDigit then pma_loop rest area (num ++ [ch]) true
      else if ch == '.' && seen_digit then (area, num)
      else pma_loop rest area num seen_digit

/-- `rule10::parse_mem_address`: addresses like `%MW100`, `%DB1.DBX10.0`,
`%M100`.  (`s.len()` is the byte length in Rust; the inputs are ASCII.) -/
def parse_mem_address (s : String) : Option (String × Int) :=
  if !starts_with_str s "%" || s.data.length < 3 then none
  else
    let parsed := pma_loop (s.data.drop 1) [] [] false
    if !parsed.1.isEmpty && !parsed.2.isEmpty then
      match parse_i64_digits parsed.2 with
      | some n => some ("%" ++ (⟨parsed.1⟩ : String), n)
      | none => none
    else none

/-- `MemoryArea::range_bounds` (in `rule10.rs`): trim the address, split on
`-`, and parse the digit runs of the two halves. -/
def range_bounds (m : MemoryArea) : Option (Int × Int) :=
  let s := str_trim m.address
  let parts := split_on_dash s.data
  match parts with
  | [p0, p1] =>
      let start_digits := p0.filter Char.isDigit
      let end_digits := p1.filter Char.isDigit
      match parse_i64_digits start_digits, parse_i64_digits end_digits with
      | some a, some b => some (a, b)
      | _, _ => none
  | _ => none

/-- `Applies::applies for MemoryArea` (in `rule10.rs`). -/
def applies (m : MemoryArea) (area : String) (addr : Int) : Bool :=
  if !starts_with_str (low_str m.address) (low_str area) then false
  else
    match range_bounds m with
    | some (start_v, end_v) => decide (start_v ≤ addr) && decide (addr ≤ end_v)
    | none => false

/-- The violation pushed by `rule10::check`. -/
def mem_violation (area : String) (addr : Int) (line : Nat) : Violation :=
  { rule_no := 10, rule_name := "Assign designated register blocks", line := line,
    reason := "Write to read-only region " ++ area ++ int_to_str addr,
    suggestion := "Move this write to an allowed area or update policy.json" }

/-- The body of the `for st in &func.statements` loop of `rule10::check`:
one `for r in areas` pass over a top-level assignment. -/
def check_stmt (areas : List MemoryArea) : Statement → List Violation
  | .Assign target _ line =>
      (match parse_mem_address target with
       | some (area, addr) =>
           (areas.filter fun r =>
             low_str r.access == "readonly" && applies r area addr).map
             fun _ => mem_violation area addr line
       | none => [])
  | _ => []

/-- `rule10::check` (violations list of the returned `RuleResult`).  Note that
the source iterates `for st in &func.statements` only — top-level statements;
it does not descend into `If`/`Case` branches. -/
def check (program : Program) (policy : Policy) : List Violation :=
  let areas := policy.memory_areas.getD []
  if areas.isEmpty then []
  else
    program.functions.flatMap fun func =>
      func.statements.flatMap fun st => check_stmt areas st

end Rule10

/-! ## Entry point (`src/backend/src/lib.rs`) -/

/-- One element of the serialized outcome list of `check_plc_code`
(`rules::WasmRuleResult`). -/
structure WasmRuleResult where
  status : String
  rule_no : Nat
  rule_name : String
  violation : Option Violation
deriving DecidableEq

/-- The sentinel outcome built by `check_plc_code` when the PLC source fails
to parse. -/
def parse_error_result (e : String) : WasmRuleResult :=
  let v : Violation :=
    { rule_no := 0, rule_name := "Parse Error", line := 0,
      reason := "Parse Error: " ++ e,
      suggestion := "Check file type and syntax." }
  { status := "ERROR", rule_no := 0, rule_name := "Parse Error", violation := some v }

/-- The outcome recorded by `check_plc_code` when the policy JSON is rejected. -/
def policy_error_result (err : String) : WasmRuleResult :=
  let v : Violation :=
    { rule_no := 0, rule_name := "Policy Parsing Error", line := 0,
      reason := err,
      suggestion := "Fix policy JSON format. See About → Custom Policy example." }
  { status := "ERROR", rule_no := 0, rule_name := "Policy Parsing Error", violation := some v }

/-- `lib::check_plc_code`, up to JSON serialization of the outcome list.  The
out-of-scope collaborators are explicit parameters: `parse_file` stands for
`parser::parse_file_from_str source_code file_name`, `parse_policy` for
`policy::parse_policy_from_text` (serde_json with `deny_unknown_fields`), and
`run_all` for `rules::run_all_for_wasm`.  The control flow — sentinel on parse
failure; trim the policy text; skip parsing when the trimmed text is empty;
on a policy parse error record one error outcome and fall back to the default
policy; run all rules; prepend the collected policy errors — is the source's. -/
def check_plc_code (parse_file : Except String Program)
    (parse_policy : String → Except String Policy)
    (run_all : Program → Policy → List WasmRuleResult)
    (policy_json : String) : List WasmRuleResult :=
  match parse_file with
  | .error e => [parse_error_result e]
  | .ok program =>
      let trimmed_policy := str_trim policy_json
      let state :=
        if !trimmed_policy.isEmpty then
          match parse_policy trimmed_policy with
          | .ok p => (p, ([] : List WasmRuleResult))
          | .error err => (default_policy, [policy_error_result err])
        else (default_policy, [])
      let results := run_all program state.1
      state.2 ++ results

/-! ## Specification-side definitions and fixtures

`specC5_cyclomatic` transcribes the cyclomatic formula exactly as the
specification words it, for comparison with the implementation
(`Rule1.cyclomatic_complexity`); the remaining definitions are the concrete
programs and policies of the scenarios under test. -/

mutual
/-- Specification wording of one statement's branch contribution: "one per
`If`, plus one more if its `else` is non-empty; one per `Case` label-group,
plus one if its `else` is non-empty", recursively. -/
def specC5_branches_of_stmt : Statement → Nat → Nat
  | .IfStmt _ then_branch else_branch _, depth =>
      1 + (if else_branch.isEmpty then 0 else 1) +
        specC5_branch_count then_branch (depth + 1) +
        specC5_branch_count else_branch (depth + 1)
  | .CaseStmt _ cases else_branch _, depth =>
      cases.length + (if else_branch.isEmpty then 0 else 1) +
        specC5_case_arms cases (depth + 1) +
        specC5_branch_count else_branch (depth + 1)
  | _, _ => 0

/-- Specification wording of the recursive branch count with the 100-level
depth cap ("recursion stopping past 100 nesting levels"). -/
def specC5_branch_count : List Statement → Nat → Nat
  | [], _ => 0
  | st :: rest, depth =>
      (if depth > 100 then 0 else specC5_branches_of_stmt st depth) +
        specC5_branch_count rest depth

/-- The case arms of the specification-side count. -/
def specC5_case_arms : List (List Expression × List Statement) → Nat → Nat
  | [], _ => 0
  | (_, body) :: rest, depth =>
      specC5_branch_count body depth + specC5_case_arms rest depth
end

/-- The cyclomatic value exactly as the specification words it (claim C5):
1 plus the recursive branch count above. -/
def specC5_cyclomatic (stmts : List Statement) : Nat :=
  1 + specC5_branch_count stmts 0

mutual
/-- The branch contribution of one statement as the AMENDED claim C5 words
it: an `If` contributes one unit plus the counts of both its branches (a
non-empty else-branch adds NO extra unit); a `Case` contributes one unit per
label-group, plus one if its else-branch is non-empty, plus the counts of its
arm bodies and else-branch; every other statement contributes zero.  Unlike
the implementation, the else-branch of an `If` is recursed into
unconditionally here. -/
def amendedC5_branches_of_stmt : Statement → Nat → Nat
  | .IfStmt _ then_branch else_branch _, depth =>
      1 + amendedC5_branch_count then_branch (depth + 1) +
        amendedC5_branch_count else_branch (depth + 1)
  | .CaseStmt _ cases else_branch _, depth =>
      cases.length + (if else_branch.isEmpty then 0 else 1) +
        amendedC5_case_arms cases (depth + 1) +
        amendedC5_branch_count else_branch (depth + 1)
  | .Assign _ _ _, _ => 0
  | .Call _ _ _, _ => 0
  | .Expr _ _, _ => 0
  | .Comment _ _, _ => 0
  | .ElseMarker _, _ => 0

/-- The amended claim's recursive branch count over a statement list:
statement lists nested past the 100-level depth cap contribute zero. -/
def amendedC5_branch_count : List Statement → Nat → Nat
  | [], _ => 0
  | st :: rest, depth =>
      (if depth > 100 then 0 else amendedC5_branches_of_stmt st depth) +
        amendedC5_branch_count rest depth

/-- The case arms of the amended claim's count. -/
def amendedC5_case_arms : List (List Expression × List Statement) → Nat → Nat
  | [], _ => 0
  | (_, body) :: rest, depth =>
      amendedC5_branch_count body depth + amendedC5_case_arms rest depth
end

/-- A routine body of `n` sequential `If` statements with empty branches. -/
def sequential_ifs : Nat → List Statement
  | 0 => []
  | n + 1 => .IfStmt (.VariableRef "Cond") [] [] 1 :: sequential_ifs n

/-- A single FC whose body is `n` sequential `If` statements. -/
def seq_if_program (n : Nat) : Program :=
  ⟨[{ name := "SeqIfs", kind := .FC, statements := sequential_ifs n, line := 1 }]⟩

/-- Scenario A: one FC with
`IF HMI_Speed > 0 THEN Motor_Speed := HMI_Speed; END_IF`
(the assignment is on source line 2). -/
def scenario_a_program : Program :=
  ⟨[{ name := "FC1", kind := .FC,
      statements :=
        [.IfStmt (.BinaryOp .Gt (.VariableRef "HMI_Speed") (.NumberLiteral 0 1) 1)
          [.Assign "Motor_Speed" (.VariableRef "HMI_Speed") 2] [] 1],
      line := 1 }]⟩

/-- Scenario B: a function body `Motor_Fwd := TRUE; Motor_Rev := TRUE;`
(second assignment on line 2). -/
def scenario_b_program : Program :=
  ⟨[{ name := "F", kind := .FC,
      statements :=
        [.Assign "Motor_Fwd" (.BoolLiteral true 1) 1,
         .Assign "Motor_Rev" (.BoolLiteral true 2) 2],
      line := 1 }]⟩

/-- Scenario B policy: `pairs = [["Motor_Fwd","Motor_Rev"]]`. -/
def scenario_b_policy : Policy :=
  { pairs := some [("Motor_Fwd", "Motor_Rev")], memory_areas := none, platform := none }

/-- The guard `HMI_T = 5`: an equality comparison between a variable and a
numeric literal. -/
def eq_literal_guard : Expression :=
  .BinaryOp .Eq (.VariableRef "HMI_T") (.NumberLiteral 5 1) 1

/-- `IF HMI_T = 5 THEN My_Preset := HMI_T; END_IF` (assignment on line 2). -/
def c2_body : List Statement :=
  [.IfStmt eq_literal_guard [.Assign "My_Preset" (.VariableRef "HMI_T") 2] [] 1]

/-- The then-branch `X := HMI_A;` that taints `X`. -/
def c3_then_branch : List Statement := [.Assign "X" (.VariableRef "HMI_A") 2]

/-- `IF C THEN X := HMI_A; END_IF` — `X` is tainted at the then-branch exit
and at neither the else-branch exit nor (we show) downstream. -/
def c3_body : List Statement := [.IfStmt (.VariableRef "C") c3_then_branch [] 1]

/-- A non-empty-else `If` with no nested branches: the body on which the
implementation and the specification formula disagree. -/
def c5_body : List Statement :=
  [.IfStmt (.BoolLiteral true 1) [] [.Assign "X" (.NumberLiteral 1 2) 2] 1]

/-- `A := B / C;` on line 3, with no guard anywhere. -/
def div_unguarded_program : Program :=
  ⟨[{ name := "F", kind := .FC,
      statements := [.Assign "A" (.BinaryOp .Div (.VariableRef "B") (.VariableRef "C") 3) 3],
      line := 1 }]⟩

/-- The status-word guard `SW.OV = 0 AND SW.OS = 0`. -/
def sw_guard : Expression :=
  .BinaryOp .And (.BinaryOp .Eq (.VariableRef "SW.OV") (.NumberLiteral 0 1) 1)
    (.BinaryOp .Eq (.VariableRef "SW.OS") (.NumberLiteral 0 1) 1) 1

/-- The same division inside `IF SW.OV=0 AND SW.OS=0 THEN ... END_IF`. -/
def div_guarded_program : Program :=
  ⟨[{ name := "F", kind := .FC,
      statements :=
        [.IfStmt sw_guard
          [.Assign "A" (.BinaryOp .Div (.VariableRef "B") (.VariableRef "C") 2) 2] [] 1],
      line := 1 }]⟩

/-- The read-only policy area `%MW100-%MW200`. -/
def ro_area : MemoryArea := { address := "%MW100-%MW200", access := "ReadOnly" }

/-- A policy declaring `%MW100-%MW200` read-only. -/
def ro_policy : Policy :=
  { pairs := none, memory_areas := some [ro_area], platform := none }

/-- A routine whose only write to `%MW150` (line 2) sits inside an `If`
branch. -/
def nested_mem_write_program : Program :=
  ⟨[{ name := "F", kind := .FC,
      statements :=
        [.IfStmt (.VariableRef "C") [.Assign "%MW150" (.NumberLiteral 5 2) 2] [] 1],
      line := 1 }]⟩

/-- The same write to `%MW150` (line 2) at the top level of the body. -/
def toplevel_mem_write_program : Program :=
  ⟨[{ name := "F", kind := .FC,
      statements := [.Assign "%MW150" (.NumberLiteral 5 2) 2], line := 1 }]⟩

/-- A policy parser that rejects every input (as serde_json does on any text
that is not valid policy JSON, including whitespace-only strings). -/
def rejecting_policy_parse : String → Except String Policy :=
  fun _ => .error "Invalid policy JSON: expected value at line 1 column 1"

/-- A marker outcome used to observe the rule results of a run. -/
def marker_outcome : WasmRuleResult :=
  { status := "OK", rule_no := 1, rule_name := "Modularize PLC Code", violation := none }

/-- A rule runner producing the marker outcome for every input. -/
def marker_run_all : Program → Policy → List WasmRuleResult :=
  fun _ _ => [marker_outcome]

/-- An empty program for exercising the entry point. -/
def empty_program : Program := ⟨[]⟩

/-! ## Helper lemmas -/

/-- Membership in the `HashSet::union` model is membership in either side. -/
theorem mem_list_union {a b : List String} {v : String} :
    v ∈ list_union a b ↔ v ∈ a ∨ v ∈ b := by
  by_cases h : v ∈ a
  · simp [list_union, h]
  · simp [list_union, List.mem_filter, h]

/-- Past the depth cap every statement list counts zero branches. -/
theorem count_branches_past_cap (stmts : List Statement) (d : Nat) (h : 100 < d) :
    Rule1.count_branches_with_depth stmts d = 0 := by
  induction stmts with
  | nil => rfl
  | cons st rest ih => simp [Rule1.count_branches_with_depth, h, ih]

/-- Branch count of `n` flat sequential `If`s. -/
theorem count_branches_sequential_ifs (n : Nat) :
    Rule1.count_branches_with_depth (sequential_ifs n) 0 = n := by
  induction n with
  | zero => rfl
  | succ n ih =>
      simp [sequential_ifs, Rule1.count_branches_with_depth, Rule1.branches_of_stmt, ih]
      omega

/-- Statement count of `n` flat sequential `If`s. -/
theorem statement_count_sequential_ifs (n : Nat) :
    Rule1.statement_count (sequential_ifs n) = n := by
  induction n with
  | zero => rfl
  | succ n ih =>
      simp [sequential_ifs, Rule1.statement_count, Rule1.statements_of_stmt, ih]
      omega

/-! ## Claim theorems -/

/-- C1: on the FC whose body is
`IF HMI_Speed > 0 THEN Motor_Speed := HMI_Speed; END_IF`, rule 8 reports
exactly one violation, carried by rule number 8, at line 2 — the line of the
assignment `Motor_Speed := HMI_Speed`. -/
theorem c1_scenario_a_single_violation :
    Rule8.check scenario_a_program =
      [{ rule_no := 8, rule_name := "Validate HMI input variables", line := 2,
         reason := "Untrusted data flows into sensitive variable 'Motor_Speed'",
         suggestion := "Sanitize the source variable with a range-checking IF statement before this assignment." }] := by
  decide

/-- C4 (counterexample): a routine of exactly 50 sequential `If` statements
has computed complexity 51 and, contrary to the claim, IS flagged by the
complexity rule (the threshold `complexity > 50` fires at 51). -/
theorem c4_fifty_ifs_flagged :
    Rule1.cyclomatic_complexity (sequential_ifs 50) = 51 ∧
      Rule1.check (seq_if_program 50) ≠ [] := by
  constructor
  · decide
  · decide

/-- C4 (amended): for a FC routine of `n` sequential `If` statements with
empty else-branches the computed complexity is `n + 1`, and the rule flags
the routine iff the complexity exceeds 50, i.e. iff `n ≥ 50`: 49 `If`s
(complexity 50) are not flagged, 50 `If`s (complexity 51) are. -/
theorem c4_amended_threshold (n : Nat) :
    Rule1.cyclomatic_complexity (sequential_ifs n) = n + 1 ∧
      (Rule1.check (seq_if_program n) ≠ [] ↔ 50 ≤ n) := by
  have hcb := count_branches_sequential_ifs n
  have hsc := statement_count_sequential_ifs n
  constructor
  · simp [Rule1.cyclomatic_complexity, Rule1.count_branches, hcb]
    omega
  · simp [Rule1.check, seq_if_program, Rule1.cyclomatic_complexity, Rule1.count_branches,
      hcb, hsc]
    by_cases h50 : 1 + n > 50 <;> by_cases h500 : n > 500 <;>
      simp [h50, h500] <;> omega

/-- C5 (counterexample): on the body `IF TRUE THEN ELSE X := 1; END_IF`
(an `If` with a non-empty else-branch), the implementation computes
cyclomatic complexity 2, while the claimed formula (one per `If` plus one
more for a non-empty else) gives 3. -/
theorem c5_nonempty_else_counterexample :
    Rule1.cyclomatic_complexity c5_body = 2 ∧ specC5_cyclomatic c5_body = 3 := by
  decide

mutual
/-- One statement's implementation branch count agrees with the amended
claim's per-statement contribution (in particular, every non-`If`/`Case`
statement contributes zero on both sides). -/
theorem branches_of_stmt_eq_amended (st : Statement) (d : Nat) :
    Rule1.branches_of_stmt st d = amendedC5_branches_of_stmt st d := by
  cases st with
  | IfStmt cond then_branch else_branch line =>
      have ht := count_branches_eq_amended then_branch (d + 1)
      have he := count_branches_eq_amended else_branch (d + 1)
      cases else_branch with
      | nil =>
          simp [Rule1.branches_of_stmt, amendedC5_branches_of_stmt, ht, ← he,
            Rule1.count_branches_with_depth]
      | cons e es =>
          simp [Rule1.branches_of_stmt, amendedC5_branches_of_stmt, ht, he]
  | CaseStmt scrut arms else_branch line =>
      have ha := case_arms_eq_amended arms (d + 1)
      have he := count_branches_eq_amended else_branch (d + 1)
      simp [Rule1.branches_of_stmt, amendedC5_branches_of_stmt, ha, he]
  | Assign target value line => rfl
  | Call name args line => rfl
  | Expr expr line => rfl
  | Comment text line => rfl
  | ElseMarker line => rfl

/-- The implementation branch count of a statement list equals the amended
claim's count, at every depth. -/
theorem count_branches_eq_amended (stmts : List Statement) (d : Nat) :
    Rule1.count_branches_with_depth stmts d = amendedC5_branch_count stmts d := by
  cases stmts with
  | nil => rfl
  | cons st rest =>
      have h1 := branches_of_stmt_eq_amended st d
      have h2 := count_branches_eq_amended rest d
      simp [Rule1.count_branches_with_depth, amendedC5_branch_count, h1, h2]

/-- The implementation's case-arm branch count equals the amended claim's. -/
theorem case_arms_eq_amended (arms : List (List Expression × List Statement)) (d : Nat) :
    Rule1.case_arms_branches arms d = amendedC5_case_arms arms d := by
  cases arms with
  | nil => rfl
  | cons arm rest =>
      obtain ⟨labels, body⟩ := arm
      have h1 := count_branches_eq_amended body d
      have h2 := case_arms_eq_amended rest d
      simp [Rule1.case_arms_branches, amendedC5_case_arms, h1, h2]
end

/-- C5 (amended): for EVERY routine body, the computed cyclomatic value
equals 1 plus the amended recursive branch count, in which each `If`
contributes one unit plus the counts of both its branches (a non-empty
else-branch adds no extra unit), each `Case` contributes one unit per
label-group plus one if its else-branch is non-empty plus the counts of its
arm bodies and else-branch, every other statement contributes zero, and
statement lists nested past the 100-level depth cap contribute zero; the
underlying branch counts moreover agree at every depth. -/
theorem c5_amended_cyclomatic_formula :
    (∀ stmts, Rule1.cyclomatic_complexity stmts = 1 + amendedC5_branch_count stmts 0) ∧
    (∀ stmts d, Rule1.count_branches_with_depth stmts d = amendedC5_branch_count stmts d) := by
  constructor
  · intro stmts
    have h := count_branches_eq_amended stmts 0
    simp [Rule1.cyclomatic_complexity, Rule1.count_branches, h]
  · exact count_branches_eq_amended

/-- C6: `A := B / C;` with no status-word guard is flagged by the division
rule; the same assignment inside `IF SW.OV=0 AND SW.OS=0 THEN ... END_IF` is
not; and any division expression yields exactly one violation for its whole
expression tree, no matter what its operands contain (a division nested in an
operand of a flagged division is not reported again). -/
theorem c6_division_guard_behavior :
    Rule4.check div_unguarded_program = [Rule4.div_violation 3] ∧
    Rule4.check div_guarded_program = [] ∧
    (∀ (l r : Expression) (el line : Nat),
      Rule4.find_divs (.BinaryOp .Div l r el) line false = [Rule4.div_violation line]) := by
  refine ⟨by decide, by decide, fun l r el line => rfl⟩

/-- C7: with policy pairs `[["Motor_Fwd","Motor_Rev"]]` and the body
`Motor_Fwd := TRUE; Motor_Rev := TRUE;`, the mutually-exclusive-outputs rule
produces exactly one violation, at line 2 (the second assignment), whose
reason names both pair members. -/
theorem c7_scenario_b_single_violation :
    Rule7.check scenario_b_program scenario_b_policy =
      [{ rule_no := 7, rule_name := "Validate paired inputs/outputs", line := 2,
         reason := "Signals 'Motor_Fwd' and 'Motor_Rev' may be active concurrently",
         suggestion := "Ensure paired signals are in mutually exclusive conditions (e.g., using IF/ELSE)." }] ∧
    contains_sub "Signals 'Motor_Fwd' and 'Motor_Rev' may be active concurrently" "Motor_Fwd" = true ∧
    contains_sub "Signals 'Motor_Fwd' and 'Motor_Rev' may be active concurrently" "Motor_Rev" = true := by
  refine ⟨by decide, by decide, by decide⟩

/-- C10: a valid division guard protects only its then-branch — for every
guard condition accepted by `is_division_guard`, an unguarded division in the
else-branch is still flagged, while the same else-branch division is not
flagged when an outer enclosing guard was already active. -/
theorem c10_guard_protects_only_then (cond : Expression) (then_branch : List Statement)
    (target : String) (num den : Expression) (dl il : Nat)
    (h : Rule4.is_division_guard cond = true) :
    Rule4.collect_div_violations
        [.IfStmt cond then_branch [.Assign target (.BinaryOp .Div num den dl) dl] il]
        false =
      Rule4.collect_div_violations then_branch true ++ [Rule4.div_violation dl] ∧
    Rule4.collect_div_violations
        [.IfStmt cond then_branch [.Assign target (.BinaryOp .Div num den dl) dl] il]
        true =
      Rule4.collect_div_violations then_branch true := by
  constructor
  · simp [Rule4.collect_div_violations, Rule4.div_violations_of_stmt, Rule4.find_divs, h]
  · simp [Rule4.collect_div_violations, Rule4.div_violations_of_stmt, Rule4.find_divs, h]

/-- C10 (witness): instantiated at the status-word guard
`SW.OV = 0 AND SW.OS = 0`, an empty then-branch and the else-branch
`A := B / C;` on line 2. -/
theorem c10_guard_witness :
    Rule4.collect_div_violations
        [.IfStmt sw_guard [] [.Assign "A" (.BinaryOp .Div (.VariableRef "B") (.VariableRef "C") 2) 2] 1]
        false =
      Rule4.collect_div_violations [] true ++ [Rule4.div_violation 2] :=
  (c10_guard_protects_only_then sw_guard [] "A" (.VariableRef "B") (.VariableRef "C") 2 1
    (by decide)).1

/-- C2 (counterexample): in `IF HMI_T = 5 THEN My_Preset := HMI_T; END_IF`
with no annotation index, the enclosing guard range-constrains `HMI_T`
(a comparison between the variable and a literal, per the structural
predicate) and `HMI_T` occurs in the tainted right-hand side — yet the timer
rule emits a violation for the assignment and ADDS the target `MY_PRESET` to
the taint set instead of removing it. -/
theorem c2_equality_guard_counterexample :
    Rule8.is_sanitizer_for eq_literal_guard "HMI_T" = true ∧
    collect_vars (Expression.VariableRef "HMI_T") = ["HMI_T"] ∧
    Rule6.is_source (Expression.VariableRef "HMI_T") = true ∧
    (Rule6.scan [] c2_body [] "").2.length = 1 ∧
    (Rule6.scan [] c2_body [] "").1.contains "MY_PRESET" = true := by
  refine ⟨by decide, by decide, by decide, by decide, by decide⟩

/-- C2 (amended): in the timer rule's scan, for every assignment whose
right-hand side is tainted, if a validation annotation appears within 3 lines
above it or the accumulated enclosing-guard TEXT passes the textual
range/limit heuristic, then no violation is emitted for that assignment even
when the target is a sink, and the target is removed from the taint set
rather than added: the scan of the remaining statements proceeds from the
taint set with the target erased and with no violation recorded. -/
theorem c2_amended_textual_sanitization (ctx : List (Nat × String))
    (rest : List Statement) (tainted : List String) (guard_text : String)
    (target : String) (value : Expression) (line : Nat)
    (h1 : (Rule6.is_source value ||
        (collect_vars value).any fun v => tainted.contains v) = true)
    (h2 : (Utils.has_plausibility_annotation_above ctx line 3 ||
        Rule6.guard_has_range_or_limit guard_text) = true) :
    Rule6.scan ctx (.Assign target value line :: rest) tainted guard_text =
      Rule6.scan ctx rest (set_remove tainted (up_str target)) guard_text := by
  simp only [Rule6.scan, Rule6.scan_stmt, h1, h2]
  simp

/-- C2 (witness): the amended statement at a concrete assignment — a tainted
right-hand side (`HMI_T`), a `@Validated` annotation two lines above, and a
preset-sink target: the scan degenerates to the scan of the empty tail with
`MY_PRESET` removed. -/
theorem c2_amended_witness :
    Rule6.scan [(3, "// @Validated by operator")]
        [.Assign "My_Preset" (.VariableRef "HMI_T") 5] ["OLD"] "" =
      Rule6.scan [(3, "// @Validated by operator")] [] (set_remove ["OLD"] (up_str "My_Preset")) "" :=
  c2_amended_textual_sanitization [(3, "// @Validated by operator")] [] ["OLD"] ""
    "My_Preset" (.VariableRef "HMI_T") 5 (by decide) (by decide)

/-- C3 (counterexample): for `IF C THEN X := HMI_A; END_IF` analyzed by rule
8's `find_taint_violations` from the empty taint set, `X` is tainted at the
exit of the then-branch (analyzed from a copy of the pre-If set) and clean at
the exit of the (empty) else-branch, so the claimed union would contain `X`;
but the taint set after the `If` is empty — the then-branch exit is
discarded. -/
theorem c3_rule8_join_counterexample :
    (Rule8.find_taint_violations c3_then_branch []).1.contains "X" = true ∧
    (Rule8.find_taint_violations ([] : List Statement) []).1 = [] ∧
    (Rule8.find_taint_violations c3_body []).1 = [] := by
  refine ⟨by decide, by decide, by decide⟩

/-- C3 (amended): rule 6's scan does merge by union — after an `If`, a
variable is in the downstream taint set iff it is in the exit set of the
then-branch (analyzed from its own copy of the pre-If set under the extended
guard) or in the exit set of the else-branch (analyzed from its own copy
under the unchanged guard).  Rule 8's `find_taint_violations`, however,
passes downstream exactly the else-branch exit set, discarding the
then-branch exit. -/
theorem c3_amended_join_semantics :
    (∀ (ctx : List (Nat × String)) (tainted : List String) (guard_text : String)
        (cond : Expression) (then_branch else_branch : List Statement) (line : Nat)
        (v : String),
      v ∈ (Rule6.scan ctx [.IfStmt cond then_branch else_branch line] tainted guard_text).1 ↔
        v ∈ (Rule6.scan ctx then_branch tainted
              (Rule6.join_guards guard_text (up_str (Utils.expr_text cond)))).1 ∨
          v ∈ (Rule6.scan ctx else_branch tainted guard_text).1) ∧
    (∀ (tainted : List String) (cond : Expression)
        (then_branch else_branch : List Statement) (line : Nat),
      (Rule8.find_taint_violations [.IfStmt cond then_branch else_branch line] tainted).1 =
        (Rule8.find_taint_violations else_branch tainted).1) := by
  constructor
  · intro ctx tainted guard_text cond then_branch else_branch line v
    simp only [Rule6.scan, Rule6.scan_stmt]
    exact mem_list_union
  · intro tainted cond then_branch else_branch line
    simp [Rule8.find_taint_violations, Rule8.taint_stmt]

/-- C3 (witness): the join equations at a concrete `If` — the union
membership for rule 6 and the else-exit equation for rule 8, at the body
`IF C THEN X := HMI_A; END_IF`. -/
theorem c3_amended_witness :
    (Rule8.find_taint_violations [.IfStmt (.VariableRef "C") c3_then_branch [] 1] []).1 =
      (Rule8.find_taint_violations ([] : List Statement) []).1 :=
  c3_amended_join_semantics.2 [] (.VariableRef "C") c3_then_branch [] 1

/-- C4 (witness): the amended threshold statement instantiated at 50
sequential `If`s. -/
theorem c4_amended_witness :
    Rule1.cyclomatic_complexity (sequential_ifs 50) = 50 + 1 ∧
      (Rule1.check (seq_if_program 50) ≠ [] ↔ 50 ≤ 50) :=
  c4_amended_threshold 50

/-- C8 (counterexample): with the policy declaring `%MW100-%MW200` read-only,
a write to `%MW150` nested inside an `If` branch parses to an address inside
the read-only range, yet the memory-region rule reports nothing — it examines
only top-level assignments. -/
theorem c8_nested_write_not_reported :
    Rule10.parse_mem_address "%MW150" = some ("%MW", 150) ∧
    (low_str ro_area.access == "readonly") = true ∧
    Rule10.applies ro_area "%MW" 150 = true ∧
    Rule10.check nested_mem_write_program ro_policy = [] := by
  refine ⟨by decide, by decide, by decide, by decide⟩

/-- C8 (amended): for every assignment at the TOP LEVEL of a routine body
whose target parses as a memory address inside a policy-declared range marked
ReadOnly, the memory-region rule reports a violation at that assignment's
line (assignments nested inside `If`/`Case` branches are not examined). -/
theorem c8_amended_toplevel_writes (program : Program) (policy : Policy)
    (areas : List MemoryArea) (f : Function) (target : String) (value : Expression)
    (line : Nat) (area : String) (addr : Int) (r : MemoryArea)
    (hpol : policy.memory_areas = some areas)
    (hf : f ∈ program.functions)
    (hst : Statement.Assign target value line ∈ f.statements)
    (hparse : Rule10.parse_mem_address target = some (area, addr))
    (hr : r ∈ areas)
    (hacc : low_str r.access = "readonly")
    (happ : Rule10.applies r area addr = true) :
    Rule10.mem_violation area addr line ∈ Rule10.check program policy := by
  have hne : areas.isEmpty = false := by
    cases areas with
    | nil => cases hr
    | cons a rest => rfl
  unfold Rule10.check
  rw [hpol]
  simp only [Option.getD_some, hne, Bool.false_eq_true, if_false]
  rw [List.mem_flatMap]
  refine ⟨f, hf, ?_⟩
  rw [List.mem_flatMap]
  refine ⟨Statement.Assign target value line, hst, ?_⟩
  simp only [Rule10.check_stmt, hparse]
  rw [List.mem_map]
  refine ⟨r, ?_, rfl⟩
  rw [List.mem_filter]
  exact ⟨hr, by simp [hacc, happ]⟩

/-- C8 (witness): the amended statement at the concrete top-level write
`%MW150 := 5;` on line 2 under the `%MW100-%MW200` ReadOnly policy. -/
theorem c8_amended_witness :
    Rule10.mem_violation "%MW" 150 2 ∈ Rule10.check toplevel_mem_write_program ro_policy :=
  c8_amended_toplevel_writes toplevel_mem_write_program ro_policy [ro_area]
    { name := "F", kind := .FC, statements := [.Assign "%MW150" (.NumberLiteral 5 2) 2], line := 1 }
    "%MW150" (.NumberLiteral 5 2) 2 "%MW" 150 ro_area
    rfl (List.mem_singleton_self _) (List.mem_singleton_self _)
    (by decide) (List.mem_singleton_self _) (by decide) (by decide)

/-- C9 (counterexample): the policy string `" "` is non-empty and is not
valid policy JSON (the modelled parser rejects every input), yet the entry
point adds NO error outcome for it: after trimming, the string is empty, so
parsing is skipped and the outcome list is exactly the rule runner's output
under the default policy. -/
theorem c9_whitespace_policy_counterexample :
    (" " : String) ≠ "" ∧
    rejecting_policy_parse " " =
      .error "Invalid policy JSON: expected value at line 1 column 1" ∧
    check_plc_code (.ok empty_program) rejecting_policy_parse marker_run_all " " =
      [marker_outcome] ∧
    ([marker_outcome] : List WasmRuleResult) ≠
      policy_error_result "Invalid policy JSON: expected value at line 1 column 1" ::
        marker_run_all empty_program default_policy := by
  refine ⟨by decide, rfl, by decide, by decide⟩

/-- C9 (amended): for every policy string that is non-empty AFTER TRIMMING
whitespace and is rejected by the policy parser, the entry point prepends
exactly one `Error` outcome carrying the parser's message to the rule
outcomes, and the rules are run with the default (empty) policy — the rule
outcomes are identical to those of a run with the empty policy string.
(A whitespace-only policy string is instead treated as absent.) -/
theorem c9_amended_policy_error (parse_policy : String → Except String Policy)
    (run_all : Program → Policy → List WasmRuleResult) (program : Program)
    (s msg : String)
    (h1 : (str_trim s).isEmpty = false)
    (h2 : parse_policy (str_trim s) = .error msg) :
    check_plc_code (.ok program) parse_policy run_all s =
      policy_error_result msg :: run_all program default_policy ∧
    check_plc_code (.ok program) parse_policy run_all "" =
      run_all program default_policy := by
  constructor
  · simp only [check_plc_code, h1, h2]
    simp
  · have h3 : (str_trim "").isEmpty = true := by decide
    simp [check_plc_code, h3]

/-- C9 (witness): the amended statement at the concrete rejected policy text
`"not json"`. -/
theorem c9_amended_witness :
    check_plc_code (.ok empty_program) rejecting_policy_parse marker_run_all "not json" =
      policy_error_result "Invalid policy JSON: expected value at line 1 column 1" ::
        marker_run_all empty_program default_policy ∧
    check_plc_code (.ok empty_program) rejecting_policy_parse marker_run_all "" =
      marker_run_all empty_program default_policy :=
  c9_amended_policy_error rejecting_policy_parse marker_run_all empty_program "not json"
    "Invalid policy JSON: expected value at line 1 column 1" (by decide) rfl

end PLC
